import Mathlib

/-!
# Verification of the trend-following strategy engine

Shallow embedding of the core of `strategy_engine.py` (and the relevant
post-processing of `db_client.py`) of the repository
`NikhilNayal/rend-following-strategy`.

Prices are modelled as rationals (`ℚ`), Python `datetime.time`-of-day values
as seconds since midnight (`ℕ`).  External collaborators (market-data
provider, order gateway) are passed in as explicit parameters: a price lookup
is an `Option ℚ` (`none` = no row / stale data), an order-placement outcome is
an `Option String` (`none` = gateway failure or timeout, `some id` = the
returned order id; in paper-trading mode the engine synthesizes an id, so
paper mode is the `some` case).

Side effects are recorded as an explicit event list: order placements reaching
the gateway (or the paper-trade log) and `save_state` calls.  A `save` event
carries the mutated leg's snapshot, which is the slice of the persisted
`RuntimeState` relevant to the per-leg claims.
-/

namespace TrendFollowing

/-- Leg statuses used by `strategy_engine.py` (string values in the source). -/
inductive LegStatus where
  | IDLE
  | WAITING_RANGE
  | WAITING_ENTRY
  | ACTIVE
  | WAITING_REENTRY
  | EXITED
  | DONE
deriving DecidableEq, Repr

/-- Leg direction (`leg_data["action"]`, `"BUY"` or `"SELL"`). -/
inductive Action where
  | BUY
  | SELL
deriving DecidableEq, Repr

/-- One entry of `state["legs"]`, as written by `select_strikes`
(strategy_engine.py lines 319-336) and mutated by the monitor.
`exit_price`/`exit_reason` are `Option` because the source dict only gains
those keys on the first exit. -/
structure LegState where
  strike : ℚ
  token : ℕ
  symbol : String
  expiry : String
  action : Action
  ref_premium : ℚ
  status : LegStatus
  range_high : ℚ
  range_low : ℚ
  entry_price : ℚ
  sl_price : ℚ
  lots : ℕ
  sl_pct : ℚ
  entry_trigger_pct : ℚ
  reentry_trigger_pct : ℚ
  entries_count : ℕ
  exit_price : Option ℚ
  exit_reason : Option String
deriving DecidableEq, Repr

/-- Observable side effects of the per-leg operations: an entry order reaching
the gateway (or paper log), an exit order, and a `save_state` call carrying
the leg's snapshot at the moment of the save. -/
inductive Event where
  | entryOrder (tag : String)
  | exitOrder (reason : String)
  | save (snapshot : LegState)
deriving DecidableEq, Repr

/-- The last snapshot persisted by a sequence of events, i.e. what a process
restart would reload for this leg. -/
def last_save (evs : List Event) : Option LegState :=
  evs.foldl (fun acc e => match e with | Event.save s => some s | _ => acc) none

/-- `execute_entry` (strategy_engine.py lines 446-507).  The gateway call is
abstracted by `order_id` (`none` = timeout or failure, lines 482-487).  On a
truthy order id the leg is activated, the entry price recorded, the stop-loss
computed from the direction (lines 489-500) and the state saved (line 505);
otherwise the leg is left untouched. -/
def execute_entry (leg : LegState) (price : ℚ) (tag : String)
    (order_id : Option String) : LegState × List Event :=
  match order_id with
  | none => (leg, [Event.entryOrder tag])
  | some _ =>
    let leg' : LegState :=
      { leg with
        status := LegStatus.ACTIVE
        entry_price := price
        sl_price :=
          match leg.action with
          | Action.BUY => price * (1 - leg.sl_pct / 100)
          | Action.SELL => price * (1 + leg.sl_pct / 100)
        entries_count := leg.entries_count + 1 }
    (leg', [Event.entryOrder tag, Event.save leg'])

/-- `execute_exit` (strategy_engine.py lines 509-551).  The order-placement
outcome `_order_id` is only logged by the source (line 541-542); the
mutation at lines 548-551 (status := EXITED, exit price, exit reason,
save) happens unconditionally. -/
def execute_exit (leg : LegState) (price : ℚ) (reason : String)
    (_order_id : Option String) : LegState × List Event :=
  let leg' : LegState :=
    { leg with
      status := LegStatus.EXITED
      exit_price := some price
      exit_reason := some reason }
  (leg', [Event.exitOrder reason, Event.save leg'])

/-- The stop-loss test of `check_leg_logic` (strategy_engine.py lines
419-423): `price <= sl_price` for BUY, `price >= sl_price` for SELL. -/
def sl_hit (leg : LegState) (p : ℚ) : Bool :=
  match leg.action with
  | Action.BUY => decide (p ≤ leg.sl_price)
  | Action.SELL => decide (leg.sl_price ≤ p)

/-- `range_high * (1 + entry_trigger_pct / 100)` (line 411). -/
def entry_trigger_price (leg : LegState) : ℚ :=
  leg.range_high * (1 + leg.entry_trigger_pct / 100)

/-- `range_high * (1 + reentry_trigger_pct / 100)` (line 438). -/
def reentry_trigger_price (leg : LegState) : ℚ :=
  leg.range_high * (1 + leg.reentry_trigger_pct / 100)

/-- The status rewrite after a stop-loss exit (strategy_engine.py lines
429-432): `WAITING_REENTRY` when fewer than two entries have been made,
`DONE` otherwise.  Note the source performs this assignment *after*
`execute_exit` has already set the status to EXITED and saved, and does not
save again. -/
def after_sl_exit (leg : LegState) : LegState :=
  if leg.entries_count < 2 then { leg with status := LegStatus.WAITING_REENTRY }
  else { leg with status := LegStatus.DONE }

/-- `check_leg_logic` (strategy_engine.py lines 396-444) for one tick.
`current_price` is the result of `db.get_option_price`; Python's
`if not current_price: return` (lines 400-401) treats both `None` and `0.0`
as missing.  `entry_order` / `exit_order` are the gateway outcomes that an
entry / exit attempt would see this tick. -/
def check_leg_logic (leg : LegState) (current_price : Option ℚ)
    (entry_order exit_order : Option String) : LegState × List Event :=
  match current_price with
  | none => (leg, [])
  | some p =>
    if p = 0 then (leg, [])
    else if leg.status = LegStatus.WAITING_ENTRY then
      (if entry_trigger_price leg < p then execute_entry leg p "ENTRY_1" entry_order
       else (leg, []))
    else if leg.status = LegStatus.ACTIVE then
      (if sl_hit leg p then
         (after_sl_exit (execute_exit leg p "SL_HIT" exit_order).1,
          (execute_exit leg p "SL_HIT" exit_order).2)
       else (leg, []))
    else if leg.status = LegStatus.WAITING_REENTRY then
      (if reentry_trigger_price leg < p then execute_entry leg p "ENTRY_2" entry_order
       else (leg, []))
    else (leg, [])

/-- The per-leg body of `check_gap_condition` (strategy_engine.py lines
557-576): only ACTIVE legs are examined; a falsy price (`None`/`0.0`) is
skipped; the exit fires on `current_price <= sl_price` for every leg,
irrespective of the leg's direction (line 571). -/
def check_gap_condition_leg (leg : LegState) (current_price : Option ℚ)
    (exit_order : Option String) : LegState × List Event :=
  if leg.status = LegStatus.ACTIVE then
    match current_price with
    | none => (leg, [])
    | some p =>
      if p = 0 then (leg, [])
      else if p ≤ leg.sl_price then execute_exit leg p "GAP_SL_HIT" exit_order
      else (leg, [])
  else (leg, [])

/-- The per-leg body of `execute_strategy_exit` (strategy_engine.py lines
584-590): ACTIVE legs are squared off at price 0 with reason
`DAILY_SQUARE_OFF`; WAITING_ENTRY / WAITING_REENTRY legs are marked DONE;
all other legs are untouched. -/
def strategy_exit_leg (leg : LegState) (exit_order : Option String) :
    LegState × List Event :=
  if leg.status = LegStatus.ACTIVE then
    execute_exit leg 0 "DAILY_SQUARE_OFF" exit_order
  else if leg.status = LegStatus.WAITING_ENTRY ∨
          leg.status = LegStatus.WAITING_REENTRY then
    ({ leg with status := LegStatus.DONE }, [])
  else (leg, [])

/-- `self.state` (strategy_engine.py lines 35-42): the durable RuntimeState.
Legs are an association list keyed by leg identifier. -/
structure RuntimeState where
  status : String
  legs : List (String × LegState)
  current_phase : Option String
  selected_expiry : Option String
  exit_triggered : Bool
  instrument : Option String
deriving DecidableEq, Repr

/-- `execute_strategy_exit` (strategy_engine.py lines 578-593) over the whole
leg table; `exit_orders` gives the gateway outcome per leg key. -/
def execute_strategy_exit (legs : List (String × LegState))
    (exit_orders : String → Option String) :
    List (String × LegState) × List Event :=
  match legs with
  | [] => ([], [])
  | (k, leg) :: rest =>
    let r := strategy_exit_leg leg (exit_orders k)
    let rr := execute_strategy_exit rest exit_orders
    ((k, r.1) :: rr.1, r.2 ++ rr.2)

/-- The body of the daily-exit window task (strategy_engine.py lines
152-161): guarded by `status != "IDLE"`; runs `execute_strategy_exit`, then
resets status to IDLE, clears the legs, the exit flag and the selected
expiry (the mutated legs are discarded by the `legs = {}` reset), and saves.
The final whole-state save (line 161) carries no single-leg snapshot and is
not recorded as an event; only order events matter at this level. -/
def daily_exit_task (st : RuntimeState)
    (exit_orders : String → Option String) : RuntimeState × List Event :=
  if st.status ≠ "IDLE" then
    let r := execute_strategy_exit st.legs exit_orders
    ({ st with
        status := "IDLE"
        legs := []
        exit_triggered := false
        selected_expiry := none }, r.2)
  else (st, [])

/-- Python `datetime.time(h, m)` accepts `0 ≤ h ≤ 23` and `0 ≤ m ≤ 59` and
raises `ValueError` otherwise. -/
def py_time_valid (h m : ℕ) : Bool :=
  decide (h ≤ 23) && decide (m ≤ 59)

/-- Seconds since midnight of `time(h, m)`. -/
def time_secs (h m : ℕ) : ℕ :=
  h * 3600 + m * 60

/-- The window gate shared by the gap-check task (strategy_engine.py line
145) and the daily-exit task (line 151):
`current_time >= time(h, m) and current_time < time(h, m + w)`.
Python's `and` short-circuits, so the right conjunct — and with it the
`time(h, m + w)` construction — is only evaluated when the left one holds.
`some b` means the gate evaluated to `b`; `none` means `time(h, m + w)`
raised `ValueError` (minute ≥ 60), which aborts the whole tick via the
loop-level handler (lines 199-201), so the task does not run. -/
def window_task_runs (now_s h m w : ℕ) : Option Bool :=
  if now_s < time_secs h m then some false
  else if py_time_valid h (m + w) then some (decide (now_s < time_secs h (m + w)))
  else none

/-- The tail of `db_client.get_spot_price_at` (db_client.py lines 253-255):
`return float(val) if val else None`, where `val` is the raw DB value
(`none` = no row).  A stored price of `0` is falsy in Python and is therefore
reported as missing. -/
def get_spot_price_at (val : Option ℚ) : Option ℚ :=
  match val with
  | none => none
  | some v => if v = 0 then none else some v

/-- `round` in Python 3: round-half-to-even (banker's rounding), used by
`select_strikes` for the ATM strike (strategy_engine.py line 266). -/
def py_round (q : ℚ) : ℤ :=
  if q - ⌊q⌋ < 1 / 2 then ⌊q⌋
  else if 1 / 2 < q - ⌊q⌋ then ⌊q⌋ + 1
  else if 2 ∣ ⌊q⌋ then ⌊q⌋ else ⌊q⌋ + 1

/-- One candidate row of `db.get_available_strikes_at` (db_client.py lines
296-306): the rows carry strike, last price, token and symbol (no expiry
key, so `best_strike.get('expiry', expiry_pref)` in the engine always falls
back to the expiry preference). -/
structure StrikeRow where
  strike_price : ℚ
  last_price : ℚ
  token : ℕ
  symbol : String
deriving DecidableEq, Repr

/-- Per-leg configuration (`config["legs"][leg_key]`). -/
structure LegConfig where
  lots : ℕ
  percentage_of_straddle : ℚ
  expiry_type : String
  action : Action
  sl_percentage : ℚ
  entry_trigger_percentage : ℚ
  reentry_trigger_percentage : ℚ
deriving DecidableEq, Repr

/-- The slice of the strategy settings used by `select_strikes`. -/
structure StrategyConfig where
  instrument : String
  strike_step : ℚ
  legs : List (String × LegConfig)
deriving DecidableEq, Repr

/-- The market-data answers as of the selection timestamp, abstracting
`db_client`: the as-of spot price (already passed through
`get_spot_price_at`, so `none` covers both "no row" and a falsy 0), the
sorted active expiries, token lookup, as-of option premium per token, and
the candidate strikes per (expiry, option type). -/
structure MarketData where
  spot_price : Option ℚ
  expiries : List String
  token_for : ℚ → String → String → Option ℕ
  option_price_at : ℕ → Option ℚ
  strikes_at : String → String → List StrikeRow

/-- `get_expiry` (strategy_engine.py lines 207-223): `None` when no expiry is
active; `"next"` takes the second entry when there are at least two,
otherwise the first entry is returned. -/
def get_expiry (expiries : List String) (type_pref : String) : Option String :=
  match expiries with
  | [] => none
  | e0 :: rest =>
    if type_pref = "next" ∧ rest ≠ [] then rest.head?
    else some e0

/-- Python's `min(candidates, key=lambda x: abs(x['last_price'] - target))`
(strategy_engine.py line 305): first-seen candidate wins ties, `None` on an
empty list. -/
def closest_to (target : ℚ) : List StrikeRow → Option StrikeRow
  | [] => none
  | x :: xs =>
    some (xs.foldl
      (fun best c =>
        if |c.last_price - target| < |best.last_price - target| then c else best)
      x)

/-- The inner helper `find_leg` of `select_strikes` (strategy_engine.py lines
292-306): resolve the leg's expiry preference (`(None, 0)` when absent),
compute the target premium as a percentage of the straddle premium, and pick
the candidate closest to it. -/
def find_leg (md : MarketData) (straddle : ℚ) (target_pct : ℚ)
    (opt_type type_pref : String) : Option StrikeRow × ℚ :=
  match get_expiry md.expiries type_pref with
  | none => (none, 0)
  | some expiry =>
    let target := straddle * (target_pct / 100)
    (closest_to target (md.strikes_at expiry opt_type), target)

/-- The leg record written by `select_strikes` on a successful pick
(strategy_engine.py lines 319-336). -/
def leg_state_from (row : StrikeRow) (cfg : LegConfig) (expiry_pref : String)
    (target : ℚ) : LegState :=
  { strike := row.strike_price
    token := row.token
    symbol := row.symbol
    expiry := expiry_pref
    action := cfg.action
    ref_premium := target
    status := LegStatus.WAITING_RANGE
    range_high := 0
    range_low := 0
    entry_price := 0
    sl_price := 0
    lots := cfg.lots
    sl_pct := cfg.sl_percentage
    entry_trigger_pct := cfg.entry_trigger_percentage
    reentry_trigger_pct := cfg.reentry_trigger_percentage
    entries_count := 0
    exit_price := none
    exit_reason := none }

/-- Dict assignment `state["legs"][leg_key] = ...` on the association list. -/
def set_leg (legs : List (String × LegState)) (k : String) (v : LegState) :
    List (String × LegState) :=
  match legs with
  | [] => [(k, v)]
  | (k', v') :: rest =>
    if k' = k then (k, v) :: rest else (k', v') :: set_leg rest k v

/-- The per-leg selection loop of `select_strikes` (strategy_engine.py lines
308-337): the option type is CE when the substring `"ce"` occurs in the leg
key (Python `"CE" if "ce" in leg_key else "PE"`); a leg with no candidate is
skipped, keeping its previous entry. -/
def select_legs (legs : List (String × LegState))
    (cfgs : List (String × LegConfig)) (md : MarketData) (straddle : ℚ) :
    List (String × LegState) :=
  match cfgs with
  | [] => legs
  | (k, c) :: rest =>
    let opt_type := if 2 ≤ (k.splitOn "ce").length then "CE" else "PE"
    let r := find_leg md straddle c.percentage_of_straddle opt_type c.expiry_type
    let legs' :=
      match r.1 with
      | some row => set_leg legs k (leg_state_from row c c.expiry_type r.2)
      | none => legs
    select_legs legs' rest md straddle

/-- `select_strikes` (strategy_engine.py lines 225-339).  The instrument is
stored into the state (line 249) *before* the spot lookup; every failure
return afterwards (missing spot, line 257-259; no active expiry, lines
270-272; missing ATM premium, lines 282-284 — Python truthiness makes a 0
premium a failure too) yields `false` with the instrument already written.
On success every picked leg is installed with status WAITING_RANGE and the
call returns `true`. -/
def select_strikes (st : RuntimeState) (cfg : StrategyConfig)
    (md : MarketData) : RuntimeState × Bool :=
  let st1 := { st with instrument := some cfg.instrument }
  match md.spot_price with
  | none => (st1, false)
  | some spot =>
    if spot = 0 then (st1, false)
    else
      let atm : ℚ := (py_round (spot / cfg.strike_step) : ℚ) * cfg.strike_step
      match get_expiry md.expiries "current" with
      | none => (st1, false)
      | some cur_expiry =>
        let ce_data :=
          match md.token_for atm "CE" cur_expiry with
          | some t => md.option_price_at t
          | none => none
        let pe_data :=
          match md.token_for atm "PE" cur_expiry with
          | some t => md.option_price_at t
          | none => none
        match ce_data, pe_data with
        | some ce, some pe =>
          if ce = 0 ∨ pe = 0 then (st1, false)
          else
            ({ st1 with legs := select_legs st1.legs cfg.legs md (ce + pe) },
             true)
        | _, _ => (st1, false)

/-- One evolution step of a single leg during the ACTIVE phase of a trading
day: a monitor tick (`check_leg_logic`), a gap-check pass, or the daily
square-off.  Prices and gateway outcomes are arbitrary. -/
inductive LegStep : LegState → LegState → Prop where
  | monitor (l : LegState) (price : Option ℚ) (eo xo : Option String) :
      LegStep l (check_leg_logic l price eo xo).1
  | gap (l : LegState) (price : Option ℚ) (xo : Option String) :
      LegStep l (check_gap_condition_leg l price xo).1
  | square_off (l : LegState) (xo : Option String) :
      LegStep l (strategy_exit_leg l xo).1

/-- A within-day starting leg: freshly selected (`WAITING_RANGE`,
`entries_count = 0`, by `leg_state_from`) or just range-finalized
(`WAITING_ENTRY`, count still 0; `finalize_ranges` runs once, between
strike selection and the ACTIVE phase, and touches no counter). -/
def leg_day_start (l : LegState) : Prop :=
  l.entries_count = 0 ∧
  (l.status = LegStatus.WAITING_RANGE ∨ l.status = LegStatus.WAITING_ENTRY)

/-- Legs reachable within one trading day from a starting leg under the
monitor / gap-check / square-off steps. -/
inductive LegReachable : LegState → Prop where
  | start (l : LegState) : leg_day_start l → LegReachable l
  | step (l l' : LegState) : LegReachable l → LegStep l l' → LegReachable l'

/-- Inductive invariant for a leg: the entry counter is bounded by 2, a leg
still waiting for its first entry has counter 0, and a leg waiting for
re-entry has counter below 2. -/
def LegInv (l : LegState) : Prop :=
  l.entries_count ≤ 2 ∧
  (l.status = LegStatus.WAITING_ENTRY → l.entries_count = 0) ∧
  (l.status = LegStatus.WAITING_REENTRY → l.entries_count < 2)

/-- A concrete leg (values echo the mocks of `test_verification.py`): a BUY
leg waiting for its first entry with range high 250 and 10% triggers. -/
def sampleLeg : LegState :=
  { strike := 59100
    token := 12345
    symbol := "BANKNIFTY26JAN59100CE"
    expiry := "current"
    action := Action.BUY
    ref_premium := 50
    status := LegStatus.WAITING_ENTRY
    range_high := 250
    range_low := 150
    entry_price := 0
    sl_price := 0
    lots := 5
    sl_pct := 20
    entry_trigger_pct := 10
    reentry_trigger_pct := 10
    entries_count := 0
    exit_price := none
    exit_reason := none }

/-- A concrete ACTIVE BUY leg after one entry at 200 (stop-loss 160). -/
def legActiveBuy : LegState :=
  { sampleLeg with
    status := LegStatus.ACTIVE
    entry_price := 200
    sl_price := 160
    entries_count := 1 }

/-- A concrete ACTIVE BUY leg after its second entry (counter at 2). -/
def legActiveBuyMax : LegState :=
  { legActiveBuy with entries_count := 2 }

/-- A concrete ACTIVE SELL leg entered at 200 (stop-loss 240). -/
def legActiveSell : LegState :=
  { sampleLeg with
    action := Action.SELL
    status := LegStatus.ACTIVE
    entry_price := 200
    sl_price := 240
    entries_count := 1 }

/-- A concrete leg that is DONE for the day. -/
def legDone : LegState :=
  { sampleLeg with status := LegStatus.DONE, entries_count := 2 }

/-- A concrete runtime state with one ACTIVE leg and one DONE leg. -/
def sampleState : RuntimeState :=
  { status := "ACTIVE"
    legs := [("sp10ce", legActiveBuy), ("sp10pe", legDone)]
    current_phase := none
    selected_expiry := some "26JAN"
    exit_triggered := false
    instrument := none }

/-- A concrete settings slice for `select_strikes`. -/
def sampleCfg : StrategyConfig :=
  { instrument := "NIFTY BANK"
    strike_step := 100
    legs := [("sp10ce",
      { lots := 5
        percentage_of_straddle := 10
        expiry_type := "current"
        action := Action.BUY
        sl_percentage := 20
        entry_trigger_percentage := 10
        reentry_trigger_percentage := 10 })] }

/-- Market data whose as-of spot lookup comes back empty. -/
def noSpotMD : MarketData :=
  { spot_price := none
    expiries := ["26JAN"]
    token_for := fun _ _ _ => none
    option_price_at := fun _ => none
    strikes_at := fun _ _ => [] }

/-- A gateway that answers every order with the same id. -/
def allOrdersOk : String → Option String := fun _ => some "1000001"

/-! ## Helper lemmas -/

theorem execute_entry_none_fst (l : LegState) (p : ℚ) (tag : String) :
    (execute_entry l p tag none).1 = l := rfl

theorem execute_exit_fst (l : LegState) (p : ℚ) (r : String) (o : Option String) :
    (execute_exit l p r o).1 =
      { l with
        status := LegStatus.EXITED
        exit_price := some p
        exit_reason := some r } := rfl

theorem legInv_execute_entry (l : LegState) (p : ℚ) (tag : String)
    (o : Option String) (hc : l.entries_count ≤ 1) (hInv : LegInv l) :
    LegInv (execute_entry l p tag o).1 := by
  cases o with
  | none => exact hInv
  | some oid =>
    refine ⟨?_, ?_, ?_⟩
    · show l.entries_count + 1 ≤ 2
      omega
    · intro hst
      simp [execute_entry] at hst
    · intro hst
      simp [execute_entry] at hst

theorem legInv_after_sl_exit (l : LegState) (p : ℚ) (o : Option String)
    (h2 : l.entries_count ≤ 2) :
    LegInv (after_sl_exit (execute_exit l p "SL_HIT" o).1) := by
  unfold after_sl_exit execute_exit
  by_cases hc : l.entries_count < 2
  · simp only [hc, if_true]
    exact ⟨h2, by intro h; simp at h, fun _ => hc⟩
  · simp only [hc, if_false]
    exact ⟨h2, by intro h; simp at h, by intro h; simp at h⟩

theorem legInv_monitor (l : LegState) (price : Option ℚ) (eo xo : Option String)
    (h : LegInv l) : LegInv (check_leg_logic l price eo xo).1 := by
  obtain ⟨h2, hWE, hWR⟩ := h
  cases price with
  | none => exact ⟨h2, hWE, hWR⟩
  | some p =>
    simp only [check_leg_logic]
    by_cases hp : p = 0
    · simp only [hp, if_pos rfl]
      exact ⟨h2, hWE, hWR⟩
    · rw [if_neg hp]
      by_cases hwe : l.status = LegStatus.WAITING_ENTRY
      · rw [if_pos hwe]
        by_cases ht : entry_trigger_price l < p
        · rw [if_pos ht]
          exact legInv_execute_entry l p "ENTRY_1" eo
            (by rw [hWE hwe]; omega) ⟨h2, hWE, hWR⟩
        · rw [if_neg ht]; exact ⟨h2, hWE, hWR⟩
      · rw [if_neg hwe]
        by_cases hact : l.status = LegStatus.ACTIVE
        · rw [if_pos hact]
          by_cases hsl : sl_hit l p
          · rw [if_pos hsl]
            exact legInv_after_sl_exit l p xo h2
          · rw [if_neg hsl]; exact ⟨h2, hWE, hWR⟩
        · rw [if_neg hact]
          by_cases hwr : l.status = LegStatus.WAITING_REENTRY
          · rw [if_pos hwr]
            by_cases ht : reentry_trigger_price l < p
            · rw [if_pos ht]
              exact legInv_execute_entry l p "ENTRY_2" eo
                (by have := hWR hwr; omega) ⟨h2, hWE, hWR⟩
            · rw [if_neg ht]; exact ⟨h2, hWE, hWR⟩
          · rw [if_neg hwr]; exact ⟨h2, hWE, hWR⟩

theorem legInv_gap (l : LegState) (price : Option ℚ) (xo : Option String)
    (h : LegInv l) : LegInv (check_gap_condition_leg l price xo).1 := by
  obtain ⟨h2, hWE, hWR⟩ := h
  by_cases hact : l.status = LegStatus.ACTIVE
  · cases price with
    | none =>
      simp only [check_gap_condition_leg, if_pos hact]
      exact ⟨h2, hWE, hWR⟩
    | some p =>
      by_cases hp : p = 0
      · simp only [check_gap_condition_leg, if_pos hact, hp, if_pos rfl]
        exact ⟨h2, hWE, hWR⟩
      · by_cases hsl : p ≤ l.sl_price
        · simp only [check_gap_condition_leg, if_pos hact, if_neg hp,
            if_pos hsl, execute_exit_fst]
          exact ⟨h2, by intro h; simp at h, by intro h; simp at h⟩
        · simp only [check_gap_condition_leg, if_pos hact, if_neg hp,
            if_neg hsl]
          exact ⟨h2, hWE, hWR⟩
  · simp only [check_gap_condition_leg, if_neg hact]
    exact ⟨h2, hWE, hWR⟩

theorem legInv_square_off (l : LegState) (xo : Option String)
    (h : LegInv l) : LegInv (strategy_exit_leg l xo).1 := by
  obtain ⟨h2, hWE, hWR⟩ := h
  simp only [strategy_exit_leg]
  by_cases hact : l.status = LegStatus.ACTIVE
  · rw [if_pos hact, execute_exit_fst]
    exact ⟨h2, by intro h; simp at h, by intro h; simp at h⟩
  · rw [if_neg hact]
    by_cases hw : l.status = LegStatus.WAITING_ENTRY ∨
        l.status = LegStatus.WAITING_REENTRY
    · rw [if_pos hw]
      exact ⟨h2, by intro h; simp at h, by intro h; simp at h⟩
    · rw [if_neg hw]; exact ⟨h2, hWE, hWR⟩

theorem strategy_exit_leg_no_order (l : LegState) (o : Option String)
    (h : l.status ≠ LegStatus.ACTIVE) : (strategy_exit_leg l o).2 = [] := by
  unfold strategy_exit_leg
  rw [if_neg h]
  split <;> rfl

theorem legInv_step {l l' : LegState} (h : LegInv l) (hs : LegStep l l') :
    LegInv l' := by
  cases hs with
  | monitor price eo xo => exact legInv_monitor l price eo xo h
  | gap price xo => exact legInv_gap l price xo h
  | square_off xo => exact legInv_square_off l xo h

theorem legReachable_inv {l : LegState} (h : LegReachable l) : LegInv l := by
  induction h with
  | start l hl =>
    obtain ⟨hc, hst⟩ := hl
    refine ⟨by omega, fun _ => hc, ?_⟩
    intro hwr
    rcases hst with h | h <;> rw [h] at hwr <;> exact absurd hwr (by simp)
  | step l l' _ hs ih => exact legInv_step ih hs

/-! ## Claim theorems -/

/-- C1 (counterexample): on the exit path the claim fails — for a concrete
ACTIVE leg, `execute_exit` with a failed/timed-out order placement (no order
id) still mutates the leg: it is marked EXITED with exit price and reason
recorded, so the stop-loss condition cannot re-fire on the next tick. -/
theorem claim_C1_counterexample :
    legActiveBuy.status = LegStatus.ACTIVE ∧
    (execute_exit legActiveBuy 150 "SL_HIT" none).1.status = LegStatus.EXITED ∧
    (execute_exit legActiveBuy 150 "SL_HIT" none).1.exit_price = some 150 ∧
    (execute_exit legActiveBuy 150 "SL_HIT" none).1 ≠ legActiveBuy := by
  refine ⟨rfl, rfl, rfl, ?_⟩
  decide

/-- C1 (amended): on the entry path a failed or timed-out order placement
(no order id from the gateway) leaves the leg completely unmutated, so the
trigger re-fires next tick; on the exit path, however, the order outcome is
ignored — the leg is always marked EXITED with exit price and reason
recorded, even when placement fails or times out. -/
theorem claim_C1 :
    (∀ (l : LegState) (p : ℚ) (tag : String),
      (execute_entry l p tag none).1 = l) ∧
    (∀ (l : LegState) (p : ℚ) (reason : String) (o : Option String),
      (execute_exit l p reason o).1 =
        { l with
          status := LegStatus.EXITED
          exit_price := some p
          exit_reason := some reason }) :=
  ⟨fun _ _ _ => rfl, fun _ _ _ _ => rfl⟩

/-- C3: at the failing input the code contradicts the claim.  For a concrete
ACTIVE SELL leg with stop-loss 240: a live price of 300 has breached the
stop in the SELL direction (price ≥ stop), yet the gap check places no exit
and leaves the leg untouched; conversely at price 200 (no SELL-direction
breach) the gap check does force a GAP_SL_HIT exit, because the code
compares `price ≤ stopLossPrice` for every leg regardless of direction. -/
theorem claim_C3 :
    legActiveSell.status = LegStatus.ACTIVE ∧
    legActiveSell.action = Action.SELL ∧
    legActiveSell.sl_price = 240 ∧
    check_gap_condition_leg legActiveSell (some 300) (allOrdersOk "sp10pe") =
      (legActiveSell, []) ∧
    (check_gap_condition_leg legActiveSell (some 200)
        (allOrdersOk "sp10pe")).1.status = LegStatus.EXITED ∧
    (check_gap_condition_leg legActiveSell (some 200)
        (allOrdersOk "sp10pe")).1.exit_reason = some "GAP_SL_HIT" := by
  refine ⟨rfl, rfl, rfl, ?_, ?_, ?_⟩ <;> decide

/-- C2 (counterexample): the stop-loss-hit transition of a leg from ACTIVE to
WAITING_REENTRY is not persisted.  On a concrete tick that fires the stop
loss, the in-memory leg ends at WAITING_REENTRY while the last snapshot
handed to the durable store during that tick records the leg as EXITED, so a
reload would not reproduce the in-memory status. -/
theorem claim_C2_counterexample :
    (check_leg_logic legActiveBuy (some 150) none
        (some "1000001")).1.status = LegStatus.WAITING_REENTRY ∧
    (last_save (check_leg_logic legActiveBuy (some 150) none
        (some "1000001")).2).map LegState.status = some LegStatus.EXITED ∧
    LegStatus.WAITING_REENTRY ≠ LegStatus.EXITED := by
  refine ⟨rfl, rfl, by decide⟩

/-- C2 (amended): entry and exit mutations performed inside
`execute_entry`/`execute_exit` are each followed by a save, but the
subsequent rewrite of the status to WAITING_REENTRY or DONE after a
stop-loss exit is not: on any stop-loss tick the last snapshot saved records
the leg as EXITED (with the exit price and reason), while the in-memory leg
ends at WAITING_REENTRY (entries < 2) or DONE (entries ≥ 2), so a restart
replays EXITED instead. -/
theorem claim_C2 :
    ∀ (l : LegState) (p : ℚ) (eo xo : Option String),
      l.status = LegStatus.ACTIVE → p ≠ 0 → sl_hit l p = true →
      (check_leg_logic l (some p) eo xo).1.status =
        (if l.entries_count < 2 then LegStatus.WAITING_REENTRY
         else LegStatus.DONE) ∧
      last_save (check_leg_logic l (some p) eo xo).2 =
        some { l with
               status := LegStatus.EXITED
               exit_price := some p
               exit_reason := some "SL_HIT" } := by
  intro l p eo xo hact hp hsl
  have hwe : ¬ l.status = LegStatus.WAITING_ENTRY := by rw [hact]; simp
  simp only [check_leg_logic, if_neg hp, if_neg hwe, if_pos hact, if_pos hsl]
  constructor
  · by_cases hc : l.entries_count < 2 <;>
      simp [after_sl_exit, execute_exit, hc]
  · rfl

/-- C2 (witness): concrete instance of the amended claim, at a stop-loss
tick on an ACTIVE BUY leg with one prior entry. -/
theorem claim_C2_witness :
    (check_leg_logic legActiveBuy (some 150) none
        (some "1000001")).1.status =
      (if legActiveBuy.entries_count < 2 then LegStatus.WAITING_REENTRY
       else LegStatus.DONE) ∧
    last_save (check_leg_logic legActiveBuy (some 150) none
        (some "1000001")).2 =
      some { legActiveBuy with
             status := LegStatus.EXITED
             exit_price := some 150
             exit_reason := some "SL_HIT" } :=
  claim_C2 legActiveBuy 150 none (some "1000001") rfl (by norm_num)
    (by decide)

/-- C4 (counterexample): when the as-of spot price is unavailable,
`select_strikes` returns false — but it has already written the resolved
instrument into the RuntimeState (before the spot lookup), so the state is
mutated, contradicting the claim. -/
theorem claim_C4_counterexample :
    (select_strikes sampleState sampleCfg noSpotMD).2 = false ∧
    sampleState.instrument = none ∧
    (select_strikes sampleState sampleCfg noSpotMD).1.instrument =
      some "NIFTY BANK" ∧
    (select_strikes sampleState sampleCfg noSpotMD).1 ≠ sampleState := by
  refine ⟨rfl, rfl, rfl, ?_⟩
  decide

/-- C4 (amended): if the spot price as of the selection timestamp is
unavailable (no data, or a falsy 0), `selectStrikes` returns false and
mutates no leg entry, but the resolved instrument field has already been
written: the resulting state is exactly the input state with the instrument
set to the configured one. -/
theorem claim_C4 :
    ∀ (st : RuntimeState) (cfg : StrategyConfig) (md : MarketData),
      (md.spot_price = none ∨ md.spot_price = some 0) →
      (select_strikes st cfg md).2 = false ∧
      (select_strikes st cfg md).1.legs = st.legs ∧
      (select_strikes st cfg md).1 =
        { st with instrument := some cfg.instrument } := by
  intro st cfg md h
  rcases h with h | h <;> simp [select_strikes, h]

/-- C4 (witness): concrete instance of the amended claim on market data with
no spot price. -/
theorem claim_C4_witness :
    (select_strikes sampleState sampleCfg noSpotMD).2 = false ∧
    (select_strikes sampleState sampleCfg noSpotMD).1.legs =
      sampleState.legs ∧
    (select_strikes sampleState sampleCfg noSpotMD).1 =
      { sampleState with instrument := some sampleCfg.instrument } :=
  claim_C4 sampleState sampleCfg noSpotMD (Or.inl rfl)

/-- C6 (counterexample): for a check time of 09:50 with a 15-minute window,
the clock instant 09:55:00 (35700 s) lies in the claimed half-open window
`[checkTime, checkTime+window)`, yet the gate does not run the task: the
window end `time(9, 50 + 15)` has minute 65 ≥ 60, so Python raises
`ValueError` and the tick aborts (modelled by `none`). -/
theorem claim_C6_counterexample :
    time_secs 9 50 ≤ 35700 ∧ 35700 < time_secs 9 50 + 60 * 15 ∧
    window_task_runs 35700 9 50 15 = none := by
  decide

/-- C6 (amended): the gap-check and daily-exit gates (both instances of the
same `current_time >= t and current_time < time(h, m+w)` pattern) run their
task exactly when the clock lies in `[t, t+w minutes)` — provided the window
end does not carry the minute count past the end of the hour (m + w ≤ 59).
When it does, `time(h, m+w)` raises and the tick aborts instead. -/
theorem claim_C6 :
    ∀ (now_s h m w : ℕ), h ≤ 23 → m + w ≤ 59 →
      window_task_runs now_s h m w =
        some (decide (time_secs h m ≤ now_s ∧
          now_s < time_secs h m + 60 * w)) := by
  intro now_s h m w hh hmw
  unfold window_task_runs py_time_valid time_secs
  by_cases h1 : now_s < h * 3600 + m * 60
  · rw [if_pos h1]
    have hnot : ¬ (h * 3600 + m * 60 ≤ now_s ∧
        now_s < h * 3600 + m * 60 + 60 * w) := by omega
    rw [decide_eq_false hnot]
  · rw [if_neg h1]
    have hv : (decide (h ≤ 23) && decide (m + w ≤ 59)) = true := by
      simp [hh, hmw]
    rw [if_pos hv]
    congr 1
    rw [decide_eq_decide]
    omega

/-- C6 (witness): concrete instance of the amended claim — a 09:16 check
time with a 5-minute window at clock 09:17:30. -/
theorem claim_C6_witness :
    window_task_runs 33450 9 16 5 =
      some (decide (time_secs 9 16 ≤ 33450 ∧
        33450 < time_secs 9 16 + 60 * 5)) :=
  claim_C6 33450 9 16 5 (by decide) (by decide)

/-- C7: running the daily-exit task twice in a row places no order on the
second run (the first run always leaves the phase at IDLE, and the guard
then skips the body entirely), and `execute_strategy_exit` emits no exit
order when no leg is ACTIVE — in particular none for EXITED or DONE legs. -/
theorem claim_C7 :
    (∀ (st : RuntimeState) (o1 o2 : String → Option String),
      (daily_exit_task (daily_exit_task st o1).1 o2).2 = []) ∧
    (∀ (legs : List (String × LegState)) (o : String → Option String),
      (∀ kl ∈ legs, kl.2.status ≠ LegStatus.ACTIVE) →
      (execute_strategy_exit legs o).2 = []) := by
  constructor
  · intro st o1 o2
    have hIdle : (daily_exit_task st o1).1.status = "IDLE" := by
      unfold daily_exit_task
      split
      · rfl
      · next hne => exact Decidable.not_not.mp hne
    generalize hst : (daily_exit_task st o1).1 = st1 at hIdle
    unfold daily_exit_task
    rw [if_neg (by simp [hIdle])]
  · intro legs o
    induction legs with
    | nil => intro _; rfl
    | cons kl rest ih =>
      intro h
      obtain ⟨k, leg⟩ := kl
      have hk : leg.status ≠ LegStatus.ACTIVE :=
        h (k, leg) (List.mem_cons_self _ _)
      have hr : ∀ kl ∈ rest, kl.2.status ≠ LegStatus.ACTIVE :=
        fun kl hkl => h kl (List.mem_cons_of_mem _ hkl)
      simp only [execute_strategy_exit]
      rw [strategy_exit_leg_no_order leg (o k) hk, ih hr]
      rfl

/-- C7 (witness): concrete instance — a double daily exit on a live state,
and a square-off pass over a single DONE leg, both place no order. -/
theorem claim_C7_witness :
    (daily_exit_task (daily_exit_task sampleState allOrdersOk).1
        allOrdersOk).2 = [] ∧
    (execute_strategy_exit [("sp10pe", legDone)] allOrdersOk).2 = [] :=
  ⟨claim_C7.1 sampleState allOrdersOk allOrdersOk,
   claim_C7.2 [("sp10pe", legDone)] allOrdersOk (by decide)⟩

/-- C8: on every successful entry the stop-loss price is set from the entry
price and the leg's direction as BUY ⇒ `price × (1 − slPct/100)`,
SELL ⇒ `price × (1 + slPct/100)`; concretely a BUY leg entered at 200 with
slPct = 20 gets stop-loss 160 and a SELL leg entered at 200 with slPct = 20
gets stop-loss 240. -/
theorem claim_C8 :
    (∀ (l : LegState) (p : ℚ) (tag oid : String),
      (execute_entry l p tag (some oid)).1.sl_price =
        if l.action = Action.BUY then p * (1 - l.sl_pct / 100)
        else p * (1 + l.sl_pct / 100)) ∧
    (execute_entry { sampleLeg with sl_pct := 20 } 200 "ENTRY_1"
        (some "1000001")).1.sl_price = 160 ∧
    (execute_entry { sampleLeg with action := Action.SELL, sl_pct := 20 } 200
        "ENTRY_1" (some "1000001")).1.sl_price = 240 := by
  refine ⟨?_, ?_, ?_⟩
  · intro l p tag oid
    cases hA : l.action <;> simp [execute_entry, hA]
  · norm_num [execute_entry, sampleLeg]
  · norm_num [execute_entry, sampleLeg]

/-- C10: a live option price of exactly 0 is treated like an unavailable
price — the per-leg tick evaluation is a no-op (leg unchanged, no order, no
save), exactly as for a missing price — and the as-of spot lookup maps a
stored 0 (and a missing row) to "missing" rather than returning 0. -/
theorem claim_C10 :
    (∀ (l : LegState) (eo xo : Option String),
      check_leg_logic l (some 0) eo xo = (l, []) ∧
      check_leg_logic l none eo xo = (l, [])) ∧
    get_spot_price_at (some 0) = none ∧
    get_spot_price_at none = none := by
  refine ⟨?_, rfl, rfl⟩
  intro l eo xo
  constructor
  · simp [check_leg_logic]
  · rfl

/-- C5: over all legs reachable within a trading day, `entries_count` never
exceeds 2; a stop-loss firing on an ACTIVE leg whose counter has reached 2
moves it to DONE (not WAITING_REENTRY); and a DONE leg is inert for the rest
of the day — the monitor tick, the gap check and the daily square-off all
leave it unchanged and place no order. -/
theorem claim_C5 :
    (∀ l : LegState, LegReachable l → l.entries_count ≤ 2) ∧
    (∀ (l : LegState) (p : ℚ) (eo xo : Option String),
      l.status = LegStatus.ACTIVE → l.entries_count = 2 → p ≠ 0 →
      sl_hit l p = true →
      (check_leg_logic l (some p) eo xo).1.status = LegStatus.DONE) ∧
    (∀ l : LegState, l.status = LegStatus.DONE →
      (∀ (price : Option ℚ) (eo xo : Option String),
        check_leg_logic l price eo xo = (l, [])) ∧
      (∀ (price : Option ℚ) (xo : Option String),
        check_gap_condition_leg l price xo = (l, [])) ∧
      (∀ xo : Option String, strategy_exit_leg l xo = (l, []))) := by
  refine ⟨?_, ?_, ?_⟩
  · intro l h
    exact (legReachable_inv h).1
  · intro l p eo xo hact hcount hp hsl
    have hwe : ¬ l.status = LegStatus.WAITING_ENTRY := by rw [hact]; simp
    simp only [check_leg_logic, if_neg hp, if_neg hwe, if_pos hact,
      if_pos hsl]
    simp [after_sl_exit, execute_exit, hcount]
  · intro l hD
    refine ⟨?_, ?_, ?_⟩
    · intro price eo xo
      cases price with
      | none => rfl
      | some p =>
        by_cases hp : p = 0
        · simp [check_leg_logic, hp]
        · simp [check_leg_logic, hp, hD]
    · intro price xo
      simp [check_gap_condition_leg, hD]
    · intro xo
      simp [strategy_exit_leg, hD]

/-- C5 (witness): concrete instances — the bound at a freshly selected leg,
the forced DONE transition at a second stop-loss (counter 2), and the
inertness of a DONE leg at an arbitrary tick. -/
theorem claim_C5_witness :
    sampleLeg.entries_count ≤ 2 ∧
    (check_leg_logic legActiveBuyMax (some 150) none
        (some "1000001")).1.status = LegStatus.DONE ∧
    check_leg_logic legDone (some 300) (some "1000001") (some "1000001") =
      (legDone, []) :=
  ⟨claim_C5.1 sampleLeg (LegReachable.start sampleLeg ⟨rfl, Or.inr rfl⟩),
   claim_C5.2.1 legActiveBuyMax 150 none (some "1000001") rfl rfl
     (by norm_num) (by decide),
   (claim_C5.2.2 legDone rfl).1 (some 300) (some "1000001")
     (some "1000001")⟩

/-- C9: a WAITING_ENTRY leg transitions to ACTIVE on a tick (with an
available, nonzero live price and a successful order placement) exactly when
the live price is strictly greater than
`rangeHigh × (1 + entryTriggerPct/100)`; for rangeHigh = 250 and
entryTriggerPct = 10 the trigger price is 275, and a live price of 274.99
leaves the leg unchanged. -/
theorem claim_C9 :
    (∀ (l : LegState) (p : ℚ) (oid : String) (xo : Option String),
      l.status = LegStatus.WAITING_ENTRY → p ≠ 0 →
      ((check_leg_logic l (some p) (some oid) xo).1.status =
          LegStatus.ACTIVE ↔
        l.range_high * (1 + l.entry_trigger_pct / 100) < p)) ∧
    ((250 : ℚ) * (1 + 10 / 100) = 275) ∧
    check_leg_logic sampleLeg (some 274.99) (some "1000001") none =
      (sampleLeg, []) := by
  refine ⟨?_, by norm_num, ?_⟩
  · intro l p oid xo hst hp
    simp only [check_leg_logic, if_neg hp, if_pos hst]
    by_cases ht : entry_trigger_price l < p
    · rw [if_pos ht]
      exact ⟨fun _ => ht, fun _ => rfl⟩
    · rw [if_neg ht]
      constructor
      · intro hA
        change l.status = LegStatus.ACTIVE at hA
        rw [hst] at hA
        exact absurd hA (by decide)
      · intro hlt
        exact absurd hlt ht
  · have hlt : ¬ entry_trigger_price sampleLeg < (274.99 : ℚ) := by
      norm_num [entry_trigger_price, sampleLeg]
    have hp : ¬ (274.99 : ℚ) = 0 := by norm_num
    simp only [check_leg_logic, if_neg hp, if_neg hlt]
    rw [if_pos (show sampleLeg.status = LegStatus.WAITING_ENTRY from rfl)]

/-- C9 (witness): concrete instance of the trigger characterization — the
sample WAITING_ENTRY leg at live price 280 with a successful order. -/
theorem claim_C9_witness :
    (check_leg_logic sampleLeg (some 280) (some "1000001") none).1.status =
        LegStatus.ACTIVE ↔
      sampleLeg.range_high * (1 + sampleLeg.entry_trigger_pct / 100) < 280 :=
  claim_C9.1 sampleLeg 280 "1000001" none rfl (by norm_num)

end TrendFollowing
